import Mathlib

/-!
Verification of the request orchestrator `process_inputs` of
`src/backend/gradio-app.py`.

The orchestrator chains three external collaborators (speech-to-text,
vision analysis, text-to-speech).  The collaborators themselves live in
modules `brain_of_the_doctor`, `voice_of_the_patient` and
`voice_of_the_doctor`, which are out of scope; here they are opaque
parameters gathered in a `Collaborators` structure.  A Python exception
raised by a collaborator is modelled as `Except.error`; the process
environment is a map from variable names to optional values; the
filesystem is a map from paths to optional file contents.  Each run
additionally produces the chronological list of collaborator calls made,
so that claims about which collaborator is invoked, how often, and with
which arguments can be stated.
-/

/-- An opaque fault raised by an external collaborator (network error,
invalid credentials, malformed media, service rejection, ...). -/
structure Fault where
  msg : String
deriving DecidableEq, Repr

/-- One observable call to an external collaborator, with the arguments
passed to it. -/
inductive Event where
  | transcribeCall (cred : Option String) (audio_filepath sttModel : String)
  | encodeCall (image_filepath : String)
  | analyzeCall (query encoded_image model : String)
  | ttsCall (input_text out_filepath : String)
deriving DecidableEq, Repr

/-- The filesystem, as a map from paths to optional file contents. -/
abbrev FS := String → Option String

/-- The external collaborators imported by `gradio-app.py`, as opaque
functions.  `transcribe_with_groq` takes (credential, audio path, model);
`encode_image` base64-encodes the file at a path;
`analyze_image_with_query` takes (query, encoded image, model).  The
speech-synthesis collaborator is split into its fault behaviour
(`ttsFault text path`: `some f` when the call raises `f`) and the audio
content it writes for a given text (`ttsAudio`). -/
structure Collaborators where
  transcribe_with_groq : Option String → String → String → Except Fault String
  encode_image : String → String
  analyze_image_with_query : String → String → String → Except Fault String
  ttsFault : String → String → Option Fault
  ttsAudio : String → String

/-- The fixed instructional prompt `system_prompt` of `gradio-app.py`,
reproduced verbatim. -/
def system_prompt : String :=
  "You have to act as a professional doctor, i know you are not but this is for learning purpose. \n            What's in this image?. Do you find anything wrong with it medically? \n            If you make a differential, suggest some remedies for them. Donot add any numbers or special characters in \n            your response. Your response should be in one long paragraph. Also always answer as if you are answering to a real person.\n            Donot say 'In the image I see' but say 'With what I see, I think you have ....'\n            Dont respond as an AI model in markdown, your answer should mimic that of an actual doctor not an AI bot, \n            Keep your answer concise (max 2 sentences). No preamble, start your answer right away please"

/-- The fixed speech-to-text model identifier passed to the transcription
collaborator. -/
def sttModel : String := "whisper-large-v3"

/-- The fixed vision model identifier passed to the analysis
collaborator. -/
def visionModel : String := "meta-llama/llama-4-scout-17b-16e-instruct"

/-- The fixed output file path passed to the speech-synthesis
collaborator. -/
def out_filepath : String := "final.mp3"

/-- Python truthiness of an optional string (`if image_filepath:`):
`None` and the empty string are falsy, every other string is truthy. -/
def pyTruthy : Option String → Bool
  | none => false
  | some s => s != ""

/-- Modelled from the spec: `text_to_speech_with_elevenlabs` (module
`voice_of_the_doctor`, not under src/) takes (text, output path); per the
spec it "writes an audio file at that path", overwriting any prior file,
"fails on invalid text or service error", and the caller's returned third
element is "a path to an existing, newly-written audio file named with
the fixed output name" — so on success the call writes the synthesized
audio at the output path and returns that path. -/
def text_to_speech_with_elevenlabs (C : Collaborators)
    (input_text output_path : String) (fs : FS) :
    Except Fault String × FS :=
  match C.ttsFault input_text output_path with
  | some f => (Except.error f, fs)
  | none =>
      (Except.ok output_path,
       fun p => if p = output_path then some (C.ttsAudio input_text) else fs p)

/-- The image-handling branch of `process_inputs`
(`if image_filepath: ... else: ...`): when the image path is truthy, the
image is encoded and the analysis collaborator is called with
`system_prompt + speech_to_text_output`; otherwise the fixed sentinel
response is produced and no collaborator is called.  Returns the doctor
response (or fault) together with the collaborator calls made. -/
def imageBranch (C : Collaborators) (image_filepath : Option String)
    (speech_to_text_output : String) : Except Fault String × List Event :=
  if pyTruthy image_filepath then
    let ip := image_filepath.getD ""
    let encoded := C.encode_image ip
    let query := system_prompt ++ speech_to_text_output
    (C.analyze_image_with_query query encoded visionModel,
     [Event.encodeCall ip, Event.analyzeCall query encoded visionModel])
  else
    (Except.ok "No image provided for me to analyze", [])

/-- The orchestrator `process_inputs` of `gradio-app.py`.  Given the
collaborators, the process environment, the two optional input paths and
the filesystem, it returns the result (the returned triple, or the
propagated fault), the chronological list of collaborator calls, and the
resulting filesystem. -/
def process_inputs (C : Collaborators) (env : String → Option String)
    (audio_filepath image_filepath : Option String) (fs : FS) :
    Except Fault (String × String × Option String) × List Event × FS :=
  match audio_filepath with
  | none =>
      (Except.ok ("No audio recorded", "Please record your question first", none),
       [], fs)
  | some ap =>
    match C.transcribe_with_groq (env "GROQ_API_KEY") ap sttModel with
    | Except.error f =>
        (Except.error f, [Event.transcribeCall (env "GROQ_API_KEY") ap sttModel], fs)
    | Except.ok speech_to_text_output =>
      let ib := imageBranch C image_filepath speech_to_text_output
      match ib.1 with
      | Except.error f =>
          (Except.error f,
           Event.transcribeCall (env "GROQ_API_KEY") ap sttModel :: ib.2, fs)
      | Except.ok doctor_response =>
        let ts := text_to_speech_with_elevenlabs C doctor_response out_filepath fs
        match ts.1 with
        | Except.error f =>
            (Except.error f,
             Event.transcribeCall (env "GROQ_API_KEY") ap sttModel :: ib.2
               ++ [Event.ttsCall doctor_response out_filepath], ts.2)
        | Except.ok audio_path =>
            (Except.ok (speech_to_text_output, doctor_response, some audio_path),
             Event.transcribeCall (env "GROQ_API_KEY") ap sttModel :: ib.2
               ++ [Event.ttsCall doctor_response out_filepath], ts.2)

/-- Recognizer for speech-synthesis calls in a trace. -/
def Event.isTts : Event → Bool
  | .ttsCall _ _ => true
  | _ => false

/-- Recognizer for transcription calls in a trace. -/
def Event.isTranscribe : Event → Bool
  | .transcribeCall _ _ _ => true
  | _ => false

/-- Recognizer for vision-analysis calls in a trace. -/
def Event.isAnalyze : Event → Bool
  | .analyzeCall _ _ _ => true
  | _ => false

/-- The image branch never calls synthesis. -/
theorem imageBranch_filter_tts (C : Collaborators) (i : Option String)
    (t : String) : ((imageBranch C i t).2).filter Event.isTts = [] := by
  unfold imageBranch
  split <;> rfl

/-- The image branch never calls transcription. -/
theorem imageBranch_filter_transcribe (C : Collaborators) (i : Option String)
    (t : String) : ((imageBranch C i t).2).filter Event.isTranscribe = [] := by
  unfold imageBranch
  split <;> rfl

/-- With no image (or an empty image path), the branch produces the fixed
sentinel and records no calls. -/
theorem imageBranch_falsy (C : Collaborators) (i : Option String)
    (t : String) (h : pyTruthy i = false) :
    imageBranch C i t = (Except.ok "No image provided for me to analyze", []) := by
  unfold imageBranch
  rw [h]
  rfl

/-- Concrete collaborators for witnesses: everything succeeds, the
transcript is the scenario question from the spec. -/
def demoC : Collaborators where
  transcribe_with_groq := fun _ _ _ => Except.ok "What is this rash on my arm"
  encode_image := fun p => "b64:" ++ p
  analyze_image_with_query := fun q _ _ => Except.ok ("diagnosis for: " ++ q)
  ttsFault := fun _ _ => none
  ttsAudio := fun t => "mp3 of " ++ t

/-- Concrete collaborators whose transcription raises a fault. -/
def faultyC : Collaborators :=
  { demoC with transcribe_with_groq := fun _ _ _ => Except.error ⟨"network error"⟩ }

/-- A concrete environment holding the transcription credential. -/
def demoEnv : String → Option String :=
  fun k => if k = "GROQ_API_KEY" then some "gsk-test" else none

/-- A concrete environment with no credentials at all. -/
def emptyEnv : String → Option String := fun _ => none

/-- A concrete filesystem with one pre-existing unrelated file and a
stale prior output file. -/
def demoFS : FS :=
  fun p => if p = "notes.txt" then some "keep me"
    else if p = "final.mp3" then some "stale audio" else none

/-- C2: with no audio path, `process_inputs` returns the fixed
placeholder strings and no audio, makes no collaborator call, and leaves
the filesystem untouched. -/
theorem C2_no_audio_short_circuit (C : Collaborators)
    (env : String → Option String) (image_filepath : Option String) (fs : FS) :
    process_inputs C env none image_filepath fs =
      (Except.ok ("No audio recorded", "Please record your question first", none),
       [], fs) := rfl

/-- With an audio path, the first collaborator call of a run is the
transcription call with the environment's GROQ_API_KEY value, the audio
path and the fixed model; and it is the run's only transcription call. -/
theorem trace_transcribe_first_and_once (C : Collaborators)
    (env : String → Option String) (ap : String)
    (image_filepath : Option String) (fs : FS) :
    ((process_inputs C env (some ap) image_filepath fs).2.1).head? =
      some (Event.transcribeCall (env "GROQ_API_KEY") ap sttModel) ∧
    ((process_inputs C env (some ap) image_filepath fs).2.1).filter
        Event.isTranscribe =
      [Event.transcribeCall (env "GROQ_API_KEY") ap sttModel] := by
  rcases htr : C.transcribe_with_groq (env "GROQ_API_KEY") ap sttModel with f | t
  · simp [process_inputs, htr, Event.isTranscribe]
  · rcases hib : (imageBranch C image_filepath t).1 with f | r
    · have h2 := imageBranch_filter_transcribe C image_filepath t
      simp [process_inputs, htr, hib, Event.isTranscribe, h2]
    · rcases hts : C.ttsFault r out_filepath with _ | f <;>
      · have h2 := imageBranch_filter_transcribe C image_filepath t
        simp [process_inputs, text_to_speech_with_elevenlabs, htr, hib, hts,
          List.filter_append, Event.isTranscribe, h2]

/-- When transcription raises, the run returns that fault, records no
synthesis call, and leaves the filesystem unchanged. -/
theorem run_of_transcribe_error (C : Collaborators)
    (env : String → Option String) (ap : String)
    (image_filepath : Option String) (fs : FS) (f : Fault)
    (htr : C.transcribe_with_groq (env "GROQ_API_KEY") ap sttModel =
      Except.error f) :
    (process_inputs C env (some ap) image_filepath fs).1 = Except.error f ∧
    ((process_inputs C env (some ap) image_filepath fs).2.1).filter
        Event.isTts = [] ∧
    (process_inputs C env (some ap) image_filepath fs).2.2 = fs := by
  simp [process_inputs, htr, Event.isTts]

/-- C8: with an audio path, the transcription collaborator is called
first (before any other collaborator) and exactly once, with the
credential read from the environment under GROQ_API_KEY, the given audio
path, and the fixed model "whisper-large-v3". -/
theorem C8_transcribe_first_and_once (C : Collaborators)
    (env : String → Option String) (ap : String)
    (image_filepath : Option String) (fs : FS) :
    ((process_inputs C env (some ap) image_filepath fs).2.1).head? =
      some (Event.transcribeCall (env "GROQ_API_KEY") ap sttModel) ∧
    ((process_inputs C env (some ap) image_filepath fs).2.1).filter
        Event.isTranscribe =
      [Event.transcribeCall (env "GROQ_API_KEY") ap sttModel] :=
  trace_transcribe_first_and_once C env ap image_filepath fs

/-- C4: with an audio path, when the transcription collaborator raises a
fault, the fault propagates unchanged to the caller, the synthesis
collaborator is never called, and the filesystem is untouched. -/
theorem C4_transcription_fault_propagates (C : Collaborators)
    (env : String → Option String) (ap : String)
    (image_filepath : Option String) (fs : FS) (f : Fault)
    (htr : C.transcribe_with_groq (env "GROQ_API_KEY") ap sttModel =
      Except.error f) :
    (process_inputs C env (some ap) image_filepath fs).1 = Except.error f ∧
    ((process_inputs C env (some ap) image_filepath fs).2.1).filter
        Event.isTts = [] ∧
    (process_inputs C env (some ap) image_filepath fs).2.2 = fs :=
  run_of_transcribe_error C env ap image_filepath fs f htr

/-- Witness for C4 at concrete inputs: the fault raised by `faultyC`
comes back to the caller and no synthesis call is recorded. -/
theorem C4_transcription_fault_propagates_witness :
    (process_inputs faultyC demoEnv (some "q.mp3") (some "skin.png")
        demoFS).1 = Except.error ⟨"network error"⟩ ∧
    ((process_inputs faultyC demoEnv (some "q.mp3") (some "skin.png")
        demoFS).2.1).filter Event.isTts = [] ∧
    (process_inputs faultyC demoEnv (some "q.mp3") (some "skin.png")
        demoFS).2.2 = demoFS :=
  C4_transcription_fault_propagates faultyC demoEnv "q.mp3" (some "skin.png")
    demoFS ⟨"network error"⟩ rfl

/-- C9: with an audio path and GROQ_API_KEY absent from the environment,
the orchestrator does not fail locally: the transcription collaborator is
still invoked, first, with `none` as the credential; and any fault it
then raises is the fault the caller observes. -/
theorem C9_missing_credential_passed_through (C : Collaborators)
    (env : String → Option String) (ap : String)
    (image_filepath : Option String) (fs : FS)
    (henv : env "GROQ_API_KEY" = none) :
    ((process_inputs C env (some ap) image_filepath fs).2.1).head? =
      some (Event.transcribeCall none ap sttModel) ∧
    (∀ f : Fault, C.transcribe_with_groq none ap sttModel = Except.error f →
      (process_inputs C env (some ap) image_filepath fs).1 = Except.error f) := by
  constructor
  · have h := (trace_transcribe_first_and_once C env ap image_filepath fs).1
    rwa [henv] at h
  · intro f hf
    have hf' : C.transcribe_with_groq (env "GROQ_API_KEY") ap sttModel =
        Except.error f := by rwa [henv]
    exact (run_of_transcribe_error C env ap image_filepath fs f hf').1

/-- Witness for C9 at concrete inputs: with an empty environment the
transcription collaborator still gets called, with no credential. -/
theorem C9_missing_credential_passed_through_witness :
    ((process_inputs demoC emptyEnv (some "q.mp3") none demoFS).2.1).head? =
      some (Event.transcribeCall none "q.mp3" sttModel) ∧
    (∀ f : Fault,
      demoC.transcribe_with_groq none "q.mp3" sttModel = Except.error f →
      (process_inputs demoC emptyEnv (some "q.mp3") none demoFS).1 =
        Except.error f) :=
  C9_missing_credential_passed_through demoC emptyEnv "q.mp3" none demoFS rfl

/-- C10: the image branch is decided by Python truthiness, not a None
check — an empty-string image path behaves exactly like no image — while
the audio short-circuit fires only on exactly None: with any audio
string, even empty, the transcription collaborator is still called. -/
theorem C10_truthiness_vs_none (C : Collaborators)
    (env : String → Option String) (audio_filepath : Option String)
    (image_filepath : Option String) (fs : FS) (s : String) :
    process_inputs C env audio_filepath (some "") fs =
      process_inputs C env audio_filepath none fs ∧
    ((process_inputs C env (some s) image_filepath fs).2.1).head? =
      some (Event.transcribeCall (env "GROQ_API_KEY") s sttModel) := by
  refine ⟨?_, (trace_transcribe_first_and_once C env s image_filepath fs).1⟩
  cases audio_filepath with
  | none => rfl
  | some ap =>
    rcases htr : C.transcribe_with_groq (env "GROQ_API_KEY") ap sttModel with f | t
    · simp [process_inputs, htr]
    · simp [process_inputs, htr, imageBranch_falsy C (some "") t rfl,
        imageBranch_falsy C none t rfl]

/-- C1: with audio and a truthy image path, once transcription returns
transcript `t`, the one and only vision-analysis call of the run carries
the query `system_prompt ++ t` (fixed prompt first, transcript second),
the base64-encoded image, and the fixed vision model identifier. -/
theorem C1_vision_prompt_composition (C : Collaborators)
    (env : String → Option String) (ap ip : String) (fs : FS) (t : String)
    (hip : ip ≠ "")
    (htr : C.transcribe_with_groq (env "GROQ_API_KEY") ap sttModel =
      Except.ok t) :
    ((process_inputs C env (some ap) (some ip) fs).2.1).filter
        Event.isAnalyze =
      [Event.analyzeCall (system_prompt ++ t) (C.encode_image ip)
        visionModel] := by
  have htru : pyTruthy (some ip) = true := by simp [pyTruthy, hip]
  rcases hres : C.analyze_image_with_query (system_prompt ++ t)
      (C.encode_image ip) visionModel with f | r
  · simp [process_inputs, imageBranch, htru, htr, hres, Event.isAnalyze]
  · rcases hts : C.ttsFault r out_filepath with _ | f <;>
      simp [process_inputs, imageBranch, text_to_speech_with_elevenlabs,
        htru, htr, hres, hts, Event.isAnalyze, List.filter_append]

/-- Witness for C1 at concrete inputs: the analysis call of a full run
carries the composed prompt, encoded image and fixed model. -/
theorem C1_vision_prompt_composition_witness :
    ((process_inputs demoC demoEnv (some "q.mp3") (some "skin.png")
        demoFS).2.1).filter Event.isAnalyze =
      [Event.analyzeCall (system_prompt ++ "What is this rash on my arm")
        (demoC.encode_image "skin.png") visionModel] :=
  C1_vision_prompt_composition demoC demoEnv "q.mp3" "skin.png" demoFS
    "What is this rash on my arm" (by decide) rfl

/-- C3 counterexample: on a concrete full run with audio and no image,
the returned response text is the code's sentinel "No image provided for
me to analyze", which is not the string "no image provided" the claim
states. -/
theorem C3_counterexample_sentinel_text :
    (process_inputs demoC demoEnv (some "q.mp3") none demoFS).1 =
      Except.ok ("What is this rash on my arm",
        "No image provided for me to analyze", some "final.mp3") ∧
    "No image provided for me to analyze" ≠ "no image provided" :=
  ⟨rfl, by decide⟩

/-- C3 amended: with an audio path and no image path, the vision-analysis
collaborator is never invoked, and (when synthesis does not fault) the
returned response text is the fixed sentinel string "No image provided
for me to analyze". -/
theorem C3_amended_no_image_sentinel (C : Collaborators)
    (env : String → Option String) (ap : String) (fs : FS) (t : String)
    (htr : C.transcribe_with_groq (env "GROQ_API_KEY") ap sttModel =
      Except.ok t) :
    ((process_inputs C env (some ap) none fs).2.1).filter Event.isAnalyze =
      [] ∧
    (C.ttsFault "No image provided for me to analyze" out_filepath = none →
      (process_inputs C env (some ap) none fs).1 =
        Except.ok (t, "No image provided for me to analyze",
          some out_filepath)) := by
  constructor
  · rcases hts : C.ttsFault "No image provided for me to analyze"
        out_filepath with _ | f <;>
      simp [process_inputs, imageBranch, pyTruthy,
        text_to_speech_with_elevenlabs, htr, hts, Event.isAnalyze]
  · intro hts
    simp [process_inputs, imageBranch, pyTruthy,
      text_to_speech_with_elevenlabs, htr, hts]

/-- Witness for the amended C3 at concrete inputs. -/
theorem C3_amended_no_image_sentinel_witness :
    ((process_inputs demoC demoEnv (some "q.mp3") none demoFS).2.1).filter
        Event.isAnalyze = [] ∧
    (process_inputs demoC demoEnv (some "q.mp3") none demoFS).1 =
      Except.ok ("What is this rash on my arm",
        "No image provided for me to analyze", some out_filepath) :=
  ⟨(C3_amended_no_image_sentinel demoC demoEnv "q.mp3" demoFS
      "What is this rash on my arm" rfl).1,
   (C3_amended_no_image_sentinel demoC demoEnv "q.mp3" demoFS
      "What is this rash on my arm" rfl).2 rfl⟩

/-- C5: with an audio path, once transcription returns `t` and the image
branch returns response `r`, the synthesis collaborator is called exactly
once, with `r` and the fixed output path "final.mp3"; and when it does
not fault, the run's only filesystem change is overwriting that one fixed
path with the synthesized audio. -/
theorem C5_synthesis_once_only_effect (C : Collaborators)
    (env : String → Option String) (ap : String)
    (image_filepath : Option String) (fs : FS) (t r : String)
    (htr : C.transcribe_with_groq (env "GROQ_API_KEY") ap sttModel =
      Except.ok t)
    (hib : (imageBranch C image_filepath t).1 = Except.ok r) :
    ((process_inputs C env (some ap) image_filepath fs).2.1).filter
        Event.isTts = [Event.ttsCall r out_filepath] ∧
    (C.ttsFault r out_filepath = none →
      (process_inputs C env (some ap) image_filepath fs).2.2 out_filepath =
        some (C.ttsAudio r) ∧
      ∀ p, p ≠ out_filepath →
        (process_inputs C env (some ap) image_filepath fs).2.2 p = fs p) := by
  have hev := imageBranch_filter_tts C image_filepath t
  constructor
  · rcases hts : C.ttsFault r out_filepath with _ | f <;>
      simp [process_inputs, text_to_speech_with_elevenlabs, htr, hib, hts,
        List.filter_append, hev, Event.isTts]
  · intro hts
    constructor
    · simp [process_inputs, text_to_speech_with_elevenlabs, htr, hib, hts]
    · intro p hp
      simp [process_inputs, text_to_speech_with_elevenlabs, htr, hib, hts, hp]

/-- Witness for C5 at concrete inputs: one synthesis call with the
response text and "final.mp3", the stale prior output overwritten, the
unrelated file untouched. -/
theorem C5_synthesis_once_only_effect_witness :
    ((process_inputs demoC demoEnv (some "q.mp3") none demoFS).2.1).filter
        Event.isTts =
      [Event.ttsCall "No image provided for me to analyze" out_filepath] ∧
    (process_inputs demoC demoEnv (some "q.mp3") none demoFS).2.2
        out_filepath =
      some (demoC.ttsAudio "No image provided for me to analyze") ∧
    (process_inputs demoC demoEnv (some "q.mp3") none demoFS).2.2
        "notes.txt" = demoFS "notes.txt" :=
  ⟨(C5_synthesis_once_only_effect demoC demoEnv "q.mp3" none demoFS
      "What is this rash on my arm"
      "No image provided for me to analyze" rfl rfl).1,
   ((C5_synthesis_once_only_effect demoC demoEnv "q.mp3" none demoFS
      "What is this rash on my arm"
      "No image provided for me to analyze" rfl rfl).2 rfl).1,
   ((C5_synthesis_once_only_effect demoC demoEnv "q.mp3" none demoFS
      "What is this rash on my arm"
      "No image provided for me to analyze" rfl rfl).2 rfl).2
     "notes.txt" (by decide)⟩

/-- C7: with an audio path, when transcription returns `t`, the image
branch returns `r`, and synthesis does not fault, the run returns exactly
the triple (transcript, response text, path of the newly written audio
file "final.mp3"), and that file now holds the synthesized audio. -/
theorem C7_success_return_triple (C : Collaborators)
    (env : String → Option String) (ap : String)
    (image_filepath : Option String) (fs : FS) (t r : String)
    (htr : C.transcribe_with_groq (env "GROQ_API_KEY") ap sttModel =
      Except.ok t)
    (hib : (imageBranch C image_filepath t).1 = Except.ok r)
    (hts : C.ttsFault r out_filepath = none) :
    (process_inputs C env (some ap) image_filepath fs).1 =
      Except.ok (t, r, some out_filepath) ∧
    (process_inputs C env (some ap) image_filepath fs).2.2 out_filepath =
      some (C.ttsAudio r) := by
  constructor <;>
    simp [process_inputs, text_to_speech_with_elevenlabs, htr, hib, hts]

/-- Witness for C7 at concrete inputs: the full run with image returns
the transcript, the analysis response, and the fixed output path. -/
theorem C7_success_return_triple_witness :
    (process_inputs demoC demoEnv (some "q.mp3") (some "skin.png")
        demoFS).1 =
      Except.ok ("What is this rash on my arm",
        "diagnosis for: " ++ (system_prompt ++ "What is this rash on my arm"),
        some out_filepath) ∧
    (process_inputs demoC demoEnv (some "q.mp3") (some "skin.png")
        demoFS).2.2 out_filepath =
      some (demoC.ttsAudio
        ("diagnosis for: " ++ (system_prompt ++ "What is this rash on my arm"))) :=
  C7_success_return_triple demoC demoEnv "q.mp3" (some "skin.png") demoFS
    "What is this rash on my arm"
    ("diagnosis for: " ++ (system_prompt ++ "What is this rash on my arm"))
    rfl rfl rfl

/-- A run never touches the filesystem outside the fixed output path. -/
theorem process_inputs_fs_frame (C : Collaborators)
    (env : String → Option String) (a i : Option String) (fs : FS)
    (p : String) (hp : p ≠ out_filepath) :
    (process_inputs C env a i fs).2.2 p = fs p := by
  cases a with
  | none => rfl
  | some ap =>
    rcases htr : C.transcribe_with_groq (env "GROQ_API_KEY") ap sttModel
        with f | t
    · simp [process_inputs, htr]
    · rcases hib : (imageBranch C i t).1 with f | r
      · simp [process_inputs, htr, hib]
      · rcases hts : C.ttsFault r out_filepath with _ | f <;>
          simp [process_inputs, text_to_speech_with_elevenlabs, htr, hib,
            hts, hp]

/-- The result and the call trace of a run do not depend on the incoming
filesystem. -/
theorem process_inputs_fs_independent (C : Collaborators)
    (env : String → Option String) (a i : Option String) (fs fs' : FS) :
    (process_inputs C env a i fs).1 = (process_inputs C env a i fs').1 ∧
    (process_inputs C env a i fs).2.1 = (process_inputs C env a i fs').2.1 := by
  cases a with
  | none => exact ⟨rfl, rfl⟩
  | some ap =>
    rcases htr : C.transcribe_with_groq (env "GROQ_API_KEY") ap sttModel
        with f | t
    · simp [process_inputs, htr]
    · rcases hib : (imageBranch C i t).1 with f | r
      · simp [process_inputs, htr, hib]
      · rcases hts : C.ttsFault r out_filepath with _ | f <;>
          simp [process_inputs, text_to_speech_with_elevenlabs, htr, hib, hts]

/-- Whether an event, if it is a synthesis call, targets the fixed output
path. -/
def ttsTargetsFixed : Event → Bool
  | .ttsCall _ p => p == out_filepath
  | _ => true

/-- The image branch records no synthesis call, so its events trivially
target the fixed path. -/
theorem imageBranch_ttsTargetsFixed (C : Collaborators) (i : Option String)
    (t : String) : ((imageBranch C i t).2).all ttsTargetsFixed = true := by
  unfold imageBranch
  split <;> rfl

/-- Every synthesis call a run records targets the fixed output path
"final.mp3". -/
theorem trace_tts_targets_fixed (C : Collaborators)
    (env : String → Option String) (a i : Option String) (fs : FS) :
    ((process_inputs C env a i fs).2.1).all ttsTargetsFixed = true := by
  cases a with
  | none => rfl
  | some ap =>
    rcases htr : C.transcribe_with_groq (env "GROQ_API_KEY") ap sttModel
        with f | t
    · simp [process_inputs, htr, ttsTargetsFixed]
    · have hall := imageBranch_ttsTargetsFixed C i t
      rcases hib : (imageBranch C i t).1 with f | r
      · simp [process_inputs, htr, hib, ttsTargetsFixed, List.all_eq_true] at hall ⊢
        exact hall
      · rcases hts : C.ttsFault r out_filepath with _ | f <;>
        · simp [process_inputs, text_to_speech_with_elevenlabs, htr, hib,
            hts, ttsTargetsFixed, List.all_eq_true] at hall ⊢
          exact hall

/-- C6: the output location is idempotent across repeated requests — the
call trace of a second identical run equals the first's, every synthesis
call of a run targets the one fixed path "final.mp3", and after running
the same request twice the filesystem agrees with the original everywhere
except that fixed path, so no files accumulate. -/
theorem C6_repeat_same_output_path (C : Collaborators)
    (env : String → Option String) (a i : Option String) (fs : FS) :
    (process_inputs C env a i
        ((process_inputs C env a i fs).2.2)).2.1 =
      (process_inputs C env a i fs).2.1 ∧
    ((process_inputs C env a i fs).2.1).all ttsTargetsFixed = true ∧
    (∀ p, p ≠ out_filepath →
      (process_inputs C env a i
          ((process_inputs C env a i fs).2.2)).2.2 p = fs p) := by
  refine ⟨(process_inputs_fs_independent C env a i _ fs).2,
    trace_tts_targets_fixed C env a i fs, fun p hp => ?_⟩
  rw [process_inputs_fs_frame C env a i _ p hp,
    process_inputs_fs_frame C env a i fs p hp]
